import Mathlib

/-!
Verification of the CHIP-8 emulator core (src/chip8.rs, src/display.rs,
src/keyboard.rs) against its design specification.

The Rust code is shallowly embedded: machine integers are `Nat` with explicit
`% 2^w` where the source wraps, fixed arrays are total maps `Nat → Nat` whose
stored values the emulator keeps in byte range, and the two places where the
source performs an unchecked stack operation that aborts the Rust process
(underflowing `stack_ptr -= 1`, out-of-bounds `stack[stack_ptr]` write) are
`none`.  The wgpu / rodio / winit collaborators are peripheral I/O: their
observable requests are recorded as an `Effect` list, and only the pixel
state of the display is modelled, exactly as in `Display::draw`.
-/

set_option maxRecDepth 8000

namespace Chip8Emu

/-- Nibble decomposition of a 16-bit opcode: `struct Instruction` and
`Instruction::new` in src/chip8.rs. -/
structure Instruction where
  digit1 : Nat
  digit2 : Nat
  digit3 : Nat
  digit4 : Nat
deriving DecidableEq, Repr

def Instruction.new (instruction : Nat) : Instruction :=
  { digit1 := (instruction &&& 0xF000) >>> 12
    digit2 := (instruction &&& 0x0F00) >>> 8
    digit3 := (instruction &&& 0x00F0) >>> 4
    digit4 := instruction &&& 0xF }

def Instruction.d1 (i : Instruction) : Nat := i.digit1

def Instruction.d2 (i : Instruction) : Nat := i.digit2

def Instruction.d3 (i : Instruction) : Nat := i.digit3

def Instruction.d4 (i : Instruction) : Nat := i.digit4

def Instruction.xy (i : Instruction) : Nat := i.d1 <<< 4 ||| i.d2

def Instruction.nn (i : Instruction) : Nat := i.digit3 <<< 4 ||| i.digit4

def Instruction.nnn (i : Instruction) : Nat :=
  i.digit2 <<< 8 ||| i.digit3 <<< 4 ||| i.digit4

/-- Host keycodes relevant to the key map of src/keyboard.rs; `other` stands
for every unmapped `VirtualKeyCode`. -/
inductive VKey where
  | key1 | key2 | key3 | key4
  | q | w | e | r
  | a | s | d | f
  | z | x | c | v
  | other
deriving DecidableEq, Repr

/-- The `key_map` built in `Keyboard::new` (src/keyboard.rs). -/
def keyMap : VKey → Option Nat
  | .key1 => some 0x1
  | .key2 => some 0x2
  | .key3 => some 0x3
  | .key4 => some 0xC
  | .q => some 0x4
  | .w => some 0x5
  | .e => some 0x6
  | .r => some 0xD
  | .a => some 0x7
  | .s => some 0x8
  | .d => some 0x9
  | .f => some 0xE
  | .z => some 0xA
  | .x => some 0x0
  | .c => some 0xB
  | .v => some 0xF
  | .other => none

/-- `struct Keyboard` (src/keyboard.rs); the `HashSet<u8>` of pressed keys is a
duplicate-free list. -/
structure Keyboard where
  keys_down : List Nat
  awaiting_key_press : Bool
  recieved_key_press : Bool
  last_key_pressed : Nat
deriving DecidableEq, Repr

def Keyboard.new : Keyboard :=
  { keys_down := [], awaiting_key_press := false, recieved_key_press := false
    last_key_pressed := 0 }

def Keyboard.is_pressed (k : Keyboard) (key : Nat) : Bool :=
  k.keys_down.contains key

def Keyboard.on_key_down (k : Keyboard) (key : VKey) : Keyboard :=
  match keyMap key with
  | some key_code =>
      { k with keys_down :=
          if k.keys_down.contains key_code then k.keys_down
          else key_code :: k.keys_down }
  | none => k

def Keyboard.on_key_up (k : Keyboard) (key : VKey) : Keyboard :=
  match keyMap key with
  | some key_code =>
      let k1 := { k with keys_down := k.keys_down.erase key_code }
      if k1.awaiting_key_press then
        { k1 with awaiting_key_press := false, recieved_key_press := true
                  last_key_pressed := key_code }
      else k1
  | none => k

def Keyboard.get_last_key_pressed (k : Keyboard) : Nat := k.last_key_pressed

/-- `struct Display` (src/display.rs).  Only the 64x32 pixel grid is state the
core can observe; the wgpu surface, buffers and pipeline are presentation-only
(`render` takes `&self` and cannot change pixels).  `dirty` backs
`Display::is_dirty`, which src/chip8.rs calls but src/display.rs does not
define.  Modelled from the spec: rendering is peripheral I/O, so the flag is an
opaque boolean that `cycle` only reads. -/
structure Display where
  pixels : Nat → Nat → Bool
  dirty : Bool

def Display.WIDTH : Nat := 64

def Display.HEIGHT : Nat := 32

def Display.clear_screen (d : Display) : Display :=
  { d with pixels := fun _ _ => false }

def Display.get_pixel (d : Display) (x y : Nat) : Bool := d.pixels y x

def Display.set_pixel (d : Display) (x y : Nat) (on0 : Bool) : Display :=
  { d with pixels := Function.update d.pixels y (Function.update (d.pixels y) x on0) }

def Display.is_dirty (d : Display) : Bool := d.dirty

/-- `Display::draw` (src/display.rs lines 182-201).  Note that the source
assigns `pixel_turned_off` on every bit instead of accumulating it, so the
returned flag is whatever the last processed pixel yielded; the fold below
replicates this by discarding the incoming flag in each iteration. -/
def Display.draw (d : Display) (starting_x starting_y : Nat) (memory : List Nat) :
    Display × Bool :=
  let r := memory.enum.foldl
    (fun (acc : (Nat → Nat → Bool) × Bool) bb =>
      let byte_number := bb.1
      let block := bb.2
      let y := (starting_y + byte_number) % Display.HEIGHT
      (List.range 8).foldl
        (fun (acc2 : (Nat → Nat → Bool) × Bool) bit_number =>
          let x := (starting_x + bit_number) % Display.WIDTH
          let current_pixel : Nat := if acc2.1 y x then 1 else 0
          let current_bit := (block >>> (7 - bit_number)) &&& 1
          let new_pixel := current_bit ^^^ current_pixel
          (Function.update acc2.1 y (Function.update (acc2.1 y) x (new_pixel != 0)),
           current_pixel == 1 && new_pixel == 0))
        acc)
    (d.pixels, false)
  ({ d with pixels := r.1 }, r.2)

/-- Observable requests the core issues to its peripheral collaborators:
`sink.play()`, `sink.stop()` and `display.render()`. -/
inductive Effect where
  | audioPlay
  | audioStop
  | render
deriving DecidableEq, Repr

/-- `struct Chip8` (src/chip8.rs).  The rodio sink is replaced by the
`Effect` lists the operations below return. -/
structure Chip8 where
  ram : Nat → Nat
  registers : Nat → Nat
  i_register : Nat
  delay_timer : Nat
  sound_timer : Nat
  pc : Nat
  stack_ptr : Nat
  stack : Nat → Nat
  display : Display
  keyboard : Keyboard
  paused : Bool
  current_instruction : Instruction

/-- `Chip8::next_instruction`. -/
def Chip8.next_instruction (s : Chip8) : Chip8 := { s with pc := s.pc + 2 }

/-- `Chip8::fetch_instruction` (src/chip8.rs lines 140-148). -/
def Chip8.fetch_instruction (s : Chip8) : Chip8 :=
  let first_byte := s.ram s.pc
  let second_byte := s.ram (s.pc + 1)
  let instruction := first_byte <<< 8 ||| second_byte
  { s.next_instruction with current_instruction := Instruction.new instruction }

/-- `Chip8::excecute_instruction` (src/chip8.rs lines 155-326), the Rust match
rendered as a first-match if chain in source arm order.  `rnd` is the byte
drawn by `rand::random::<u8>()` in the Cxnn arm.  The two unchecked stack
operations whose execution aborts the Rust process are `none`: `00EE` with
`stack_ptr == 0` (the `stack_ptr -= 1` underflow) and `2nnn` with
`stack_ptr == 16` (the `stack[16]` out-of-bounds write). -/
def Chip8.excecute_instruction (rnd : Nat) (s : Chip8) : Option (Chip8 × List Effect) :=
  let i := s.current_instruction
  let d1 := i.d1
  let d2 := i.d2
  let d3 := i.d3
  let d4 := i.d4
  if d1 = 0 ∧ d2 = 0 ∧ d3 = 0xE ∧ d4 = 0 then -- 00E0: clear screen
    some ({ s with display := s.display.clear_screen }, [])
  else if d1 = 0 ∧ d2 = 0 ∧ d3 = 0xE ∧ d4 = 0xE then -- 00EE: return
    if s.stack_ptr = 0 then none
    else some ({ s with stack_ptr := s.stack_ptr - 1
                        pc := s.stack (s.stack_ptr - 1) }, [])
  else if d1 = 1 then -- 1nnn: jump
    some ({ s with pc := i.nnn }, [])
  else if d1 = 2 then -- 2nnn: call
    if 16 ≤ s.stack_ptr then none
    else some ({ s with stack := Function.update s.stack s.stack_ptr (s.pc % 65536)
                        pc := i.nnn
                        stack_ptr := s.stack_ptr + 1 }, [])
  else if d1 = 3 then -- 3xnn: skip if vx == nn
    some (if s.registers d2 = i.nn % 256 then s.next_instruction else s, [])
  else if d1 = 4 then -- 4xnn: skip if vx != nn
    some (if s.registers d2 ≠ i.nn % 256 then s.next_instruction else s, [])
  else if d1 = 5 ∧ d4 = 0 then -- 5xy0: skip if vx == vy
    some (if s.registers d2 = s.registers d3 then s.next_instruction else s, [])
  else if d1 = 9 ∧ d4 = 0 then -- 9xy0: skip if vx != vy
    some (if s.registers d2 ≠ s.registers d3 then s.next_instruction else s, [])
  else if d1 = 6 then -- 6xnn: vx = nn
    some ({ s with registers := Function.update s.registers d2 (i.nn % 256) }, [])
  else if d1 = 7 then -- 7xnn: vx = vx wrapping_add nn
    some ({ s with registers :=
        Function.update s.registers d2 ((s.registers d2 + i.nn % 256) % 256) }, [])
  else if d1 = 8 ∧ d4 = 0 then -- 8xy0: vx = vy
    some ({ s with registers := Function.update s.registers d2 (s.registers d3) }, [])
  else if d1 = 8 ∧ d4 = 1 then -- 8xy1: vx |= vy
    some ({ s with registers :=
        Function.update s.registers d2 (s.registers d2 ||| s.registers d3) }, [])
  else if d1 = 8 ∧ d4 = 2 then -- 8xy2: vx &= vy
    some ({ s with registers :=
        Function.update s.registers d2 (s.registers d2 &&& s.registers d3) }, [])
  else if d1 = 8 ∧ d4 = 3 then -- 8xy3: vx ^= vy
    some ({ s with registers :=
        Function.update s.registers d2 (s.registers d2 ^^^ s.registers d3) }, [])
  else if d1 = 8 ∧ d4 = 4 then -- 8xy4: vx = vx overflowing_add vy, vf = carry
    let vx := s.registers d2
    let vy := s.registers d3
    let new_vx := (vx + vy) % 256
    let overflow := 256 ≤ vx + vy
    let regs := Function.update (Function.update s.registers d2 new_vx) 0xF (if overflow then 1 else 0)
    some ({ s with registers := regs }, [])
  else if d1 = 8 ∧ d4 = 5 then -- 8xy5: vx = vx overflowing_sub vy, vf = no-borrow
    let vx := s.registers d2
    let vy := s.registers d3
    let new_vx := (vx + 256 - vy) % 256
    let underflow := vx < vy
    let regs := Function.update (Function.update s.registers d2 new_vx) 0xF (if underflow then 0 else 1)
    some ({ s with registers := regs }, [])
  else if d1 = 8 ∧ d4 = 7 then -- 8xy7: vx = vy overflowing_sub vx, vf = no-borrow
    let vx := s.registers d2
    let vy := s.registers d3
    let new_vx := (vy + 256 - vx) % 256
    let underflow := vy < vx
    let regs := Function.update (Function.update s.registers d2 new_vx) 0xF (if underflow then 0 else 1)
    some ({ s with registers := regs }, [])
  else if d1 = 8 ∧ d4 = 6 then -- 8xy6: vx = vy, vx >>= 1, vf = shifted out bit
    let regs1 := Function.update s.registers d2 (s.registers d3)
    let og_vx := regs1 d2
    let regs2 := Function.update regs1 d2 (og_vx >>> 1)
    some ({ s with registers := Function.update regs2 0xF (og_vx &&& 1) }, [])
  else if d1 = 8 ∧ d4 = 0xE then -- 8xyE: vx = vy, vx <<= 1, vf = shifted out bit
    let regs1 := Function.update s.registers d2 (s.registers d3)
    let og_vx := regs1 d2
    let regs2 := Function.update regs1 d2 ((og_vx <<< 1) % 256)
    some ({ s with registers := Function.update regs2 0xF ((og_vx >>> 7) &&& 1) }, [])
  else if d1 = 0xA then -- Annn: i = nnn
    some ({ s with i_register := i.nnn }, [])
  else if d1 = 0xB then -- Bnnn: pc = nnn + v0
    some ({ s with pc := i.nnn + s.registers 0 }, [])
  else if d1 = 0xC then -- Cxnn: vx = random byte AND nn
    some ({ s with registers :=
        Function.update s.registers d2 ((rnd % 256) &&& (i.nn % 256)) }, [])
  else if d1 = 0xD then -- Dxyn: draw sprite ram[i..i+n] at (vx, vy)
    let x := s.registers d2
    let y := s.registers d3
    let from0 := s.i_register
    let memory := (List.range d4).map (fun k => s.ram (from0 + k))
    let r := s.display.draw x y memory
    some ({ s with display := r.1
                   registers := Function.update s.registers 0xF (if r.2 then 1 else 0) }, [])
  else if d1 = 0xE ∧ d4 = 0xE then
    -- source pattern (0xE, x, _0x9, 0xE): `_0x9` is a binder, so every third
    -- nibble matches, not only 0x9
    some (if s.keyboard.is_pressed (s.registers d2) then s.next_instruction else s, [])
  else if d1 = 0xE ∧ d3 = 0xA ∧ d4 = 0x1 then -- ExA1: skip if key vx not pressed
    some (if ¬ s.keyboard.is_pressed (s.registers d2) then s.next_instruction else s, [])
  else if d1 = 0xF ∧ d3 = 0x0 ∧ d4 = 0x7 then -- Fx07: vx = delay timer
    some ({ s with registers := Function.update s.registers d2 s.delay_timer }, [])
  else if d1 = 0xF ∧ d3 = 0x1 ∧ d4 = 0x5 then -- Fx15: delay timer = vx
    some ({ s with delay_timer := s.registers d2 }, [])
  else if d1 = 0xF ∧ d3 = 0x1 ∧ d4 = 0x8 then -- Fx18: sound timer = vx, play if > 0
    some ({ s with sound_timer := s.registers d2 },
          if 0 < s.registers d2 then [Effect.audioPlay] else [])
  else if d1 = 0xF ∧ d3 = 0x1 ∧ d4 = 0xE then -- Fx1E: i += vx, vf = 1 only on overflow
    let new_i := s.i_register + s.registers d2
    some ({ s with i_register := new_i
                   registers := if 0x0FFF < new_i
                                then Function.update s.registers 0xF 1
                                else s.registers }, [])
  else if d1 = 0xF ∧ d3 = 0x0 ∧ d4 = 0xA then -- Fx0A: wait for key release
    some ({ s with keyboard := { s.keyboard with awaiting_key_press := true } }, [])
  else if d1 = 0xF ∧ d3 = 0x2 ∧ d4 = 0x9 then -- Fx29: i = vx * 5
    some ({ s with i_register := s.registers d2 * 5 }, [])
  else if d1 = 0xF ∧ d3 = 0x3 ∧ d4 = 0x3 then -- Fx33: BCD of vx at i, i+1, i+2
    let num := s.registers d2
    let m1 := Function.update s.ram s.i_register (num / 100)
    let m2 := Function.update m1 (s.i_register + 1) (num / 10 % 10)
    let m3 := Function.update m2 (s.i_register + 2) (num % 10)
    some ({ s with ram := m3 }, [])
  else if d1 = 0xF ∧ d3 = 0x5 ∧ d4 = 0x5 then -- Fx55: store v0..vx at i
    let m := (List.range (d2 + 1)).foldl (fun m k => Function.update m (s.i_register + k) (s.registers k)) s.ram
    some ({ s with ram := m }, [])
  else if d1 = 0xF ∧ d3 = 0x6 ∧ d4 = 0x5 then -- Fx65: load v0..vx from i
    let regs := (List.range (d2 + 1)).foldl (fun regs k => Function.update regs k (s.ram (s.i_register + k))) s.registers
    some ({ s with registers := regs }, [])
  else
    some (s, []) -- unmatched opcode: no-op

/-- `Chip8::handle_await_keypress` (src/chip8.rs lines 368-372). -/
def Chip8.handle_await_keypress (s : Chip8) : Chip8 :=
  { s with registers := Function.update s.registers s.current_instruction.d2 s.keyboard.get_last_key_pressed
           keyboard := { s.keyboard with awaiting_key_press := false, recieved_key_press := false } }

/-- `Chip8::cycle` (src/chip8.rs lines 328-343).  The conditional render on
`display.is_dirty()` becomes a trailing `render` effect. -/
def Chip8.cycle (rnd : Nat) (s : Chip8) : Option (Chip8 × List Effect) :=
  if s.paused then some (s, [])
  else
    let s1 := if s.keyboard.recieved_key_press then s.handle_await_keypress else s
    let step := if s1.keyboard.awaiting_key_press then some (s1, ([] : List Effect))
                else (s1.fetch_instruction).excecute_instruction rnd
    step.map (fun p => (p.1, p.2 ++ (if p.1.display.is_dirty then [Effect.render] else [])))

/-- `Chip8::tick_timers` (src/chip8.rs lines 345-357); `sink.stop()` becomes an
`audioStop` effect. -/
def Chip8.tick_timers (s : Chip8) : Chip8 × List Effect :=
  let s1 := if 0 < s.delay_timer then { s with delay_timer := s.delay_timer - 1 } else s
  if 0 < s1.sound_timer then
    let s2 := { s1 with sound_timer := s1.sound_timer - 1 }
    (s2, if s2.sound_timer = 0 then [Effect.audioStop] else [])
  else (s1, [])

/-- `Chip8::on_key_down`. -/
def Chip8.on_key_down (s : Chip8) (key : VKey) : Chip8 :=
  { s with keyboard := s.keyboard.on_key_down key }

/-- `Chip8::on_key_up`. -/
def Chip8.on_key_up (s : Chip8) (key : VKey) : Chip8 :=
  { s with keyboard := s.keyboard.on_key_up key }

/-- A machine with zeroed memory, registers and stack, used as the base of the
concrete evaluations below. -/
def zeroChip8 : Chip8 :=
  { ram := fun _ => 0
    registers := fun _ => 0
    i_register := 0
    delay_timer := 0
    sound_timer := 0
    pc := 0x200
    stack_ptr := 0
    stack := fun _ => 0
    display := { pixels := fun _ _ => false, dirty := false }
    keyboard := Keyboard.new
    paused := false
    current_instruction := Instruction.new 0 }

/-! ### Decoder arithmetic -/

/-- Masking with a shifted mask and then shifting right is masking the shifted
value. -/
theorem and_mask_shiftRight (v m k : Nat) :
    (v &&& (m <<< k)) >>> k = (v >>> k) &&& m := by
  apply Nat.eq_of_testBit_eq
  intro j
  simp [Nat.testBit_shiftRight, Nat.testBit_and, Nat.testBit_shiftLeft,
    Nat.add_sub_cancel_left]

theorem Instruction.new_digit1 (v : Nat) :
    (Instruction.new v).digit1 = v / 4096 % 16 := by
  show (v &&& 0xF000) >>> 12 = v / 4096 % 16
  have h : (0xF000 : Nat) = 0xF <<< 12 := by decide
  rw [h, and_mask_shiftRight, Nat.shiftRight_eq_div_pow]
  exact Nat.and_pow_two_sub_one_eq_mod (v / 2 ^ 12) 4

theorem Instruction.new_digit2 (v : Nat) :
    (Instruction.new v).digit2 = v / 256 % 16 := by
  show (v &&& 0x0F00) >>> 8 = v / 256 % 16
  have h : (0x0F00 : Nat) = 0xF <<< 8 := by decide
  rw [h, and_mask_shiftRight, Nat.shiftRight_eq_div_pow]
  exact Nat.and_pow_two_sub_one_eq_mod (v / 2 ^ 8) 4

theorem Instruction.new_digit3 (v : Nat) :
    (Instruction.new v).digit3 = v / 16 % 16 := by
  show (v &&& 0x00F0) >>> 4 = v / 16 % 16
  have h : (0x00F0 : Nat) = 0xF <<< 4 := by decide
  rw [h, and_mask_shiftRight, Nat.shiftRight_eq_div_pow]
  exact Nat.and_pow_two_sub_one_eq_mod (v / 2 ^ 4) 4

theorem Instruction.new_digit4 (v : Nat) :
    (Instruction.new v).digit4 = v % 16 :=
  Nat.and_pow_two_sub_one_eq_mod v 4

/-- Bit-or of three disjoint nibble fields is their sum (bounded check). -/
theorem or_three_nibbles_fin : ∀ (c b a : Fin 16),
    ((c.val <<< 8) ||| (b.val <<< 4) ||| a.val) = c.val * 256 + b.val * 16 + a.val := by
  decide

/-- Bit-or of two disjoint nibble fields is their sum (bounded check). -/
theorem or_two_nibbles_fin : ∀ (b a : Fin 16),
    ((b.val <<< 4) ||| a.val) = b.val * 16 + a.val := by
  decide

theorem or_three_nibbles (c b a : Nat) (hc : c < 16) (hb : b < 16) (ha : a < 16) :
    ((c <<< 8) ||| (b <<< 4) ||| a) = c * 256 + b * 16 + a :=
  or_three_nibbles_fin ⟨c, hc⟩ ⟨b, hb⟩ ⟨a, ha⟩

theorem or_two_nibbles (b a : Nat) (hb : b < 16) (ha : a < 16) :
    ((b <<< 4) ||| a) = b * 16 + a :=
  or_two_nibbles_fin ⟨b, hb⟩ ⟨a, ha⟩

/-- C9: for every 16-bit opcode value v (indeed for every natural v), the
decoder yields `nnn = v &&& 0x0FFF` and `nn = v &&& 0x00FF`. -/
theorem decode_nnn_nn (v : Nat) :
    (Instruction.new v).nnn = v &&& 0x0FFF ∧ (Instruction.new v).nn = v &&& 0x00FF := by
  have h2 := Instruction.new_digit2 v
  have h3 := Instruction.new_digit3 v
  have h4 := Instruction.new_digit4 v
  constructor
  · rw [Instruction.nnn, h2, h3, h4,
      or_three_nibbles _ _ _ (by omega) (by omega) (by omega),
      Nat.and_pow_two_sub_one_eq_mod v 12]
    omega
  · rw [Instruction.nn, h3, h4,
      or_two_nibbles _ _ (by omega) (by omega),
      Nat.and_pow_two_sub_one_eq_mod v 8]
    omega

/-! ### Concrete machine states used by the claim evaluations -/

/-- A cleared framebuffer. -/
def clearedDisplay : Display := { pixels := fun _ _ => false, dirty := false }

/-- Machine about to draw the one-byte sprite `0x80` at (0, 0): `I = 0`,
`ram[0] = 0x80`, registers zero, current instruction `D011`. -/
def drawTwiceState : Chip8 :=
  { zeroChip8 with
      ram := fun a => if a = 0 then 0x80 else 0
      current_instruction := Instruction.new 0xD011 }

/-- Machine whose next executed instruction is `00EE` while the stack is
empty. -/
def returnOnEmptyStackState : Chip8 :=
  { zeroChip8 with current_instruction := Instruction.new 0x00EE }

/-- Machine whose next executed instruction is `2ABC` while the stack is
full (`stack_ptr = 16`). -/
def callOnFullStackState : Chip8 :=
  { zeroChip8 with current_instruction := Instruction.new 0x2ABC, stack_ptr := 16 }

/-- Machine with `VF = 1`, `I = 0`, `V0 = 0`, about to execute `F01E`. -/
def fx1eVfStaleState : Chip8 :=
  { zeroChip8 with
      registers := Function.update (fun _ => 0) 0xF 1
      current_instruction := Instruction.new 0xF01E }

/-- Machine with `I = 0x0FFF` and `V0 = 1`, about to execute `F01E`. -/
def fx1eOverflowState : Chip8 :=
  { zeroChip8 with
      i_register := 0x0FFF
      registers := Function.update (fun _ => 0) 0 1
      current_instruction := Instruction.new 0xF01E }

/-- Machine whose next fetched opcode is `0xE00E` while key 0 (the value of
`V0`) is held down. -/
def e00eKeyDownState : Chip8 :=
  { zeroChip8 with
      ram := fun a => if a = 0x200 then 0xE0 else if a = 0x201 then 0x0E else 0
      keyboard := { Keyboard.new with keys_down := [0] } }

/-- Machine whose next fetched opcode is `0x5011`, which no match arm covers. -/
def unmatched5011State : Chip8 :=
  { zeroChip8 with
      ram := fun a => if a = 0x200 then 0x50 else if a = 0x201 then 0x11 else 0 }

/-- Machine that has just executed `F30A` and is awaiting a key release. -/
def awaitingKeyState : Chip8 :=
  { zeroChip8 with
      keyboard := { Keyboard.new with awaiting_key_press := true }
      current_instruction := Instruction.new 0xF30A }

/-- `awaitingKeyState` after the host released the W key (CHIP-8 key 5). -/
def keyResolvedState : Chip8 :=
  { zeroChip8 with
      keyboard := { Keyboard.new with recieved_key_press := true, last_key_pressed := 5 }
      current_instruction := Instruction.new 0xF30A }

/-- Machine with `V0 = 0xFF`, `V1 = 0x01`, about to execute `8014`. -/
def addOverflowState : Chip8 :=
  { zeroChip8 with
      registers := fun i => if i = 0 then 0xFF else if i = 1 then 0x01 else 0
      current_instruction := Instruction.new 0x8014 }

/-- Machine with `V0 = 0x01`, `V1 = 0x02`, about to execute `8015`. -/
def subBorrowState : Chip8 :=
  { zeroChip8 with
      registers := fun i => if i = 0 then 0x01 else if i = 1 then 0x02 else 0
      current_instruction := Instruction.new 0x8015 }

/-- Machine with `delay_timer = 5` and `sound_timer = 1`. -/
def timersState : Chip8 :=
  { zeroChip8 with delay_timer := 5, sound_timer := 1 }

/-- Machine at `pc = 0x300` with `2ABC` at 0x300 and `00EE` at 0xABC, three
return addresses on the stack. -/
def callReturnState : Chip8 :=
  { zeroChip8 with
      pc := 0x300
      stack_ptr := 3
      ram := fun a =>
        if a = 0x300 then 0x2A else if a = 0x301 then 0xBC
        else if a = 0xABC then 0x00 else if a = 0xABD then 0xEE else 0 }

/-- A paused machine (nonzero timers, pending fetch, dirty display). -/
def pausedState : Chip8 :=
  { zeroChip8 with
      paused := true
      delay_timer := 7
      sound_timer := 2
      display := { pixels := fun _ _ => false, dirty := true } }

/-! ### Claim theorems -/

/-- C10: when the pause flag is set, `cycle` is a complete no-op: the machine
state (memory, registers, I, PC, stack, stack pointer, timers, current
instruction, display pixels, keyboard) is returned unchanged and no
collaborator call — render or audio — is issued. -/
theorem cycle_paused_noop (rnd : Nat) (s : Chip8) (h : s.paused = true) :
    s.cycle rnd = some (s, []) := by
  simp [Chip8.cycle, h]

/-- Witness for `cycle_paused_noop` at a concrete paused machine. -/
theorem cycle_paused_noop_witness :
    pausedState.paused = true ∧ pausedState.cycle 0 = some (pausedState, []) :=
  ⟨rfl, cycle_paused_noop 0 pausedState rfl⟩

/-- C7: each timer tick decrements DelayTimer and SoundTimer by exactly 1 when
positive and leaves them at 0 when already 0 (they are naturals, so never
negative), and it emits the audio-stop signal exactly when SoundTimer makes
its 1 → 0 transition — one signal on that transition and none otherwise. -/
theorem tick_timers_spec (s : Chip8) :
    (0 < s.delay_timer → (s.tick_timers).1.delay_timer = s.delay_timer - 1) ∧
    (s.delay_timer = 0 → (s.tick_timers).1.delay_timer = 0) ∧
    (0 < s.sound_timer → (s.tick_timers).1.sound_timer = s.sound_timer - 1) ∧
    (s.sound_timer = 0 → (s.tick_timers).1.sound_timer = 0) ∧
    ((s.tick_timers).2 = if s.sound_timer = 1 then [Effect.audioStop] else []) := by
  rcases hs : s.sound_timer with _ | n <;>
    rcases hd : s.delay_timer with _ | m <;>
      simp [Chip8.tick_timers, hs, hd]

/-- Witness for `tick_timers_spec` at delay 5, sound 1: delay ticks to 4,
sound ticks to 0 and exactly one stop signal is emitted. -/
theorem tick_timers_spec_witness :
    0 < timersState.delay_timer ∧
    (timersState.tick_timers).1.delay_timer = timersState.delay_timer - 1 ∧
    0 < timersState.sound_timer ∧
    (timersState.tick_timers).1.sound_timer = timersState.sound_timer - 1 ∧
    (timersState.tick_timers).2 = (if timersState.sound_timer = 1 then [Effect.audioStop] else []) :=
  ⟨by decide, (tick_timers_spec timersState).1 (by decide), by decide,
   (tick_timers_spec timersState).2.2.1 (by decide),
   (tick_timers_spec timersState).2.2.2.2⟩

/-- C2 (code bug): the source handles neither 00EE on an empty stack nor 2nnn
on a full stack with any explicit policy; both run into unchecked `stack_ptr`
arithmetic or out-of-bounds stack indexing that aborts the Rust process,
modelled as `none` — not a clamp, not a documented halt, and in release mode
the underflow silently wraps `stack_ptr` to 2^64 - 1 before the abort. -/
theorem stack_unchecked_aborts :
    returnOnEmptyStackState.excecute_instruction 0 = none ∧
    callOnFullStackState.excecute_instruction 0 = none :=
  ⟨rfl, rfl⟩

/-- C1 (code bug): drawing the one-byte sprite 0x80 twice at (0,0) on a
cleared display: the first draw reports collision = false and turns the pixel
on, the second turns it back off but still reports collision = false —
`Display::draw` overwrites `pixel_turned_off` on every pixel instead of
accumulating, so only the last processed pixel decides the flag.  The final
conjunct replays this through opcode D011: VF is 0 after the second draw
although an on-pixel was turned off. -/
theorem draw_collision_flag_code_bug :
    (clearedDisplay.draw 0 0 [0x80]).2 = false ∧
    (clearedDisplay.draw 0 0 [0x80]).1.get_pixel 0 0 = true ∧
    ((clearedDisplay.draw 0 0 [0x80]).1.draw 0 0 [0x80]).2 = false ∧
    ((clearedDisplay.draw 0 0 [0x80]).1.draw 0 0 [0x80]).1.get_pixel 0 0 = false ∧
    ((drawTwiceState.excecute_instruction 0).bind
        (fun p => p.1.excecute_instruction 0)).map
      (fun p => (p.1.registers 0xF, p.1.display.get_pixel 0 0)) = some (0, false) :=
  ⟨rfl, rfl, rfl, rfl, rfl⟩

/-- C4 (code bug): opcode 0xE00E matches no row of the instruction table, yet
with key 0 (= V0) pressed a cycle executing it advances PC by 4, because the
source pattern `(0xE, x, _0x9, 0xE)` binds the third nibble instead of
requiring the literal 0x9, absorbing every ExNE opcode into the Ex9E
skip-if-pressed arm.  The second conjunct shows a genuinely unmatched opcode
(0x5011) behaving as the claim demands: PC advances by exactly 2 and nothing
else changes. -/
theorem unmatched_opcode_code_bug :
    (e00eKeyDownState.cycle 0).map (fun p => p.1.pc) = some 0x204 ∧
    unmatched5011State.cycle 0 =
      some ({ unmatched5011State with
                pc := 0x202
                current_instruction := Instruction.new 0x5011 }, []) :=
  ⟨rfl, rfl⟩

/-- C3 counterexample: executing F01E from VF = 1, I = 0, V0 = 0 leaves
I = 0, which does not exceed 0x0FFF, yet VF = 1 — refuting the claim that
VF = 0 whenever the resulting I is at most 0x0FFF. -/
theorem fx1e_vf_counterexample :
    (fx1eVfStaleState.excecute_instruction 0).map
      (fun p => (p.1.i_register, p.1.registers 0xF)) = some (0, 1) ∧
    ¬ (0x0FFF < (0 : Nat)) :=
  ⟨rfl, by omega⟩

/-- C3 (amended): Fx1E sets I to I + Vx, and sets VF to 1 when the resulting I
exceeds 0x0FFF; otherwise the register file — VF included — is left unchanged
rather than cleared to 0. -/
theorem fx1e_add_i (rnd : Nat) (s : Chip8) (x : Nat)
    (h : s.current_instruction = ⟨0xF, x, 0x1, 0xE⟩) :
    s.excecute_instruction rnd =
      some ({ s with
                i_register := s.i_register + s.registers x
                registers := if 0x0FFF < s.i_register + s.registers x
                             then Function.update s.registers 0xF 1
                             else s.registers }, []) := by
  simp [Chip8.excecute_instruction, h, Instruction.d1, Instruction.d2,
    Instruction.d3, Instruction.d4]

/-- Witness for `fx1e_add_i`: from I = 0x0FFF, V0 = 1, F01E yields I = 0x1000
and VF = 1. -/
theorem fx1e_add_i_witness :
    fx1eOverflowState.current_instruction = ⟨0xF, 0, 0x1, 0xE⟩ ∧
    (fx1eOverflowState.excecute_instruction 0).map
      (fun p => (p.1.i_register, p.1.registers 0xF)) = some (0x1000, 1) := by
  refine ⟨by decide, ?_⟩
  rw [fx1e_add_i 0 fx1eOverflowState 0 (by decide)]
  rfl

/-- C6: 8xy4 stores the wrapped sum in Vx and then writes the carry into VF —
1 exactly when the true sum exceeds 255; 8xy5 stores the wrapped difference in
Vx and then writes the no-borrow flag into VF — 1 exactly when Vx ≥ Vy held
before the operation (the VF write is last, as in the source, so it wins when
x = 0xF). -/
theorem add_sub_carry_borrow :
    (∀ (rnd : Nat) (s : Chip8) (x y : Nat), s.current_instruction = ⟨8, x, y, 4⟩ →
      s.excecute_instruction rnd =
        some ({ s with registers := Function.update (Function.update s.registers x ((s.registers x + s.registers y) % 256)) 0xF (if 256 ≤ s.registers x + s.registers y then 1 else 0) }, [])) ∧
    (∀ (rnd : Nat) (s : Chip8) (x y : Nat), s.current_instruction = ⟨8, x, y, 5⟩ →
      s.excecute_instruction rnd =
        some ({ s with registers := Function.update (Function.update s.registers x ((s.registers x + 256 - s.registers y) % 256)) 0xF (if s.registers x < s.registers y then 0 else 1) }, [])) := by
  constructor <;>
    · intro rnd s x y h
      simp [Chip8.excecute_instruction, h, Instruction.d1, Instruction.d2,
        Instruction.d3, Instruction.d4]

/-- Witness for `add_sub_carry_borrow`: V0=0xFF, V1=0x01, opcode 0x8014 gives
V0=0x00, VF=1; V0=0x01, V1=0x02, opcode 0x8015 gives V0=0xFF, VF=0. -/
theorem add_sub_carry_borrow_witness :
    addOverflowState.current_instruction = ⟨8, 0, 1, 4⟩ ∧
    (addOverflowState.excecute_instruction 0).map
      (fun p => (p.1.registers 0, p.1.registers 0xF)) = some (0x00, 1) ∧
    subBorrowState.current_instruction = ⟨8, 0, 1, 5⟩ ∧
    (subBorrowState.excecute_instruction 0).map
      (fun p => (p.1.registers 0, p.1.registers 0xF)) = some (0xFF, 0) := by
  refine ⟨by decide, ?_, by decide, ?_⟩
  · rw [add_sub_carry_borrow.1 0 addOverflowState 0 1 (by decide)]
    rfl
  · rw [add_sub_carry_borrow.2 0 subBorrowState 0 1 (by decide)]
    rfl

/-- The 2nnn arm: with room on the stack, push the post-fetch PC (as u16) and
jump to nnn. -/
theorem exec_call (rnd : Nat) (s : Chip8) (n1 n2 n3 : Nat)
    (h : s.current_instruction = ⟨2, n1, n2, n3⟩) (hsp : s.stack_ptr < 16) :
    s.excecute_instruction rnd =
      some ({ s with stack := Function.update s.stack s.stack_ptr (s.pc % 65536)
                     pc := (⟨2, n1, n2, n3⟩ : Instruction).nnn
                     stack_ptr := s.stack_ptr + 1 }, []) := by
  simp [Chip8.excecute_instruction, h, Instruction.d1, Instruction.d2,
    Instruction.d3, Instruction.d4, show ¬ 16 ≤ s.stack_ptr by omega]

/-- The 00EE arm: with a nonempty stack, pop the saved address into PC. -/
theorem exec_ret (rnd : Nat) (s : Chip8)
    (h : s.current_instruction = ⟨0, 0, 0xE, 0xE⟩) (hsp : s.stack_ptr ≠ 0) :
    s.excecute_instruction rnd =
      some ({ s with stack_ptr := s.stack_ptr - 1
                     pc := s.stack (s.stack_ptr - 1) }, []) := by
  simp [Chip8.excecute_instruction, h, Instruction.d1, Instruction.d2,
    Instruction.d3, Instruction.d4, hsp]

/-- C8: from any state at PC = 0x300 with stack depth sp < 16, opcode 2ABC in
memory at 0x300 and 00EE at 0xABC, fetching and executing the call and then
the return yields PC = 0x302 and the stack depth restored to sp. -/
theorem call_then_return (rnd1 rnd2 : Nat) (s : Chip8) (sp : Nat)
    (hpc : s.pc = 0x300) (hsp : s.stack_ptr = sp) (hlt : sp < 16)
    (h1 : s.ram 0x300 = 0x2A) (h2 : s.ram 0x301 = 0xBC)
    (h3 : s.ram 0xABC = 0x00) (h4 : s.ram 0xABD = 0xEE) :
    ((s.fetch_instruction.excecute_instruction rnd1).bind
      (fun p => p.1.fetch_instruction.excecute_instruction rnd2)).map
      (fun p => (p.1.pc, p.1.stack_ptr)) = some (0x302, sp) := by
  subst hsp
  have hf1 : s.fetch_instruction =
      { s with pc := 0x302, current_instruction := Instruction.new 0x2ABC } := by
    simp [Chip8.fetch_instruction, Chip8.next_instruction, hpc, h1, h2]
  have hst1 : s.fetch_instruction.excecute_instruction rnd1 =
      some ({ s with
                pc := 0xABC
                current_instruction := Instruction.new 0x2ABC
                stack := Function.update s.stack s.stack_ptr 0x302
                stack_ptr := s.stack_ptr + 1 }, []) := by
    rw [hf1, exec_call rnd1 _ 0xA 0xB 0xC rfl (by show s.stack_ptr < 16; omega)]
    rfl
  have hf2 : ({ s with
                  pc := 0xABC
                  current_instruction := Instruction.new 0x2ABC
                  stack := Function.update s.stack s.stack_ptr 0x302
                  stack_ptr := s.stack_ptr + 1 } : Chip8).fetch_instruction =
      { s with
          pc := 0xABE
          current_instruction := Instruction.new 0x00EE
          stack := Function.update s.stack s.stack_ptr 0x302
          stack_ptr := s.stack_ptr + 1 } := by
    simp [Chip8.fetch_instruction, Chip8.next_instruction, h3, h4]
  have hst2 : ({ s with
                   pc := 0xABC
                   current_instruction := Instruction.new 0x2ABC
                   stack := Function.update s.stack s.stack_ptr 0x302
                   stack_ptr := s.stack_ptr + 1 } : Chip8).fetch_instruction.excecute_instruction rnd2 =
      some ({ s with
                pc := Function.update s.stack s.stack_ptr 0x302 s.stack_ptr
                current_instruction := Instruction.new 0x00EE
                stack := Function.update s.stack s.stack_ptr 0x302
                stack_ptr := s.stack_ptr }, []) := by
    rw [hf2, exec_ret rnd2 _ rfl (by show s.stack_ptr + 1 ≠ 0; omega)]
    rfl
  rw [hst1]
  simp [hst2, Function.update_same]

/-- Witness for `call_then_return` at the concrete machine `callReturnState`
(stack depth 3). -/
theorem call_then_return_witness :
    callReturnState.pc = 0x300 ∧ callReturnState.stack_ptr = 3 ∧ (3 : Nat) < 16 ∧
    ((callReturnState.fetch_instruction.excecute_instruction 0).bind
      (fun p => p.1.fetch_instruction.excecute_instruction 0)).map
      (fun p => (p.1.pc, p.1.stack_ptr)) = some (0x302, 3) :=
  ⟨rfl, rfl, by omega,
   call_then_return 0 0 callReturnState 3 rfl rfl (by omega) rfl rfl rfl rfl⟩

/-- C5: the input-wait protocol around Fx0A.  (1) executing Fx0A only raises
the awaiting flag — PC (already advanced past the Fx0A by its fetch),
registers and all other state stay put; (2) while awaiting with no release
received, every cycle returns the machine unchanged, at most re-rendering the
unchanged pixels; (3) key-down events never resolve the wait; (4) neither do
releases of unmapped keys; (5) a mapped key release while awaiting clears the
awaiting flag, sets the received flag and records the released key's nibble,
touching no CPU state; (6) the first cycle after resolution writes the
recorded nibble into register x of the stored Fx0A instruction, clears both
flags and performs a normal fetch/execute from the unchanged PC, so no
instruction is skipped or executed twice. -/
theorem await_key_protocol :
    (∀ (rnd : Nat) (s : Chip8) (x : Nat), s.current_instruction = ⟨0xF, x, 0, 0xA⟩ →
      s.excecute_instruction rnd =
        some ({ s with keyboard := { s.keyboard with awaiting_key_press := true } }, [])) ∧
    (∀ (rnd : Nat) (s : Chip8), s.paused = false →
      s.keyboard.awaiting_key_press = true → s.keyboard.recieved_key_press = false →
      s.cycle rnd = some (s, if s.display.is_dirty then [Effect.render] else [])) ∧
    (∀ (s : Chip8) (k : VKey),
      (s.on_key_down k).keyboard.awaiting_key_press = s.keyboard.awaiting_key_press ∧
      (s.on_key_down k).keyboard.recieved_key_press = s.keyboard.recieved_key_press) ∧
    (∀ (s : Chip8) (k : VKey), keyMap k = none → s.on_key_up k = s) ∧
    (∀ (s : Chip8) (k : VKey) (c : Nat), keyMap k = some c →
      s.keyboard.awaiting_key_press = true →
      s.on_key_up k =
        { s with keyboard :=
            { keys_down := s.keyboard.keys_down.erase c
              awaiting_key_press := false
              recieved_key_press := true
              last_key_pressed := c } }) ∧
    (∀ (rnd : Nat) (s : Chip8), s.paused = false →
      s.keyboard.recieved_key_press = true →
      s.cycle rnd =
        (({ s with
              registers := Function.update s.registers s.current_instruction.d2 s.keyboard.last_key_pressed
              keyboard := { s.keyboard with
                              awaiting_key_press := false
                              recieved_key_press := false } }).fetch_instruction.excecute_instruction rnd).map
          (fun p : Chip8 × List Effect =>
            (p.1, p.2 ++ if p.1.display.is_dirty then [Effect.render] else []))) := by
  refine ⟨?_, ?_, ?_, ?_, ?_, ?_⟩
  · intro rnd s x h
    simp [Chip8.excecute_instruction, h, Instruction.d1, Instruction.d2,
      Instruction.d3, Instruction.d4]
  · intro rnd s hp hw hr
    simp [Chip8.cycle, hp, hw, hr]
  · intro s k
    cases k <;> simp [Chip8.on_key_down, Keyboard.on_key_down, keyMap]
  · intro s k hk
    simp [Chip8.on_key_up, Keyboard.on_key_up, hk]
  · intro s k c hk hw
    simp [Chip8.on_key_up, Keyboard.on_key_up, hk, hw]
  · intro rnd s hp hr
    simp [Chip8.cycle, Chip8.handle_await_keypress, Keyboard.get_last_key_pressed, hp, hr]

/-- Witness for `await_key_protocol`: executing F30A suspends the machine,
cycles while awaiting change nothing, a key-down or an unmapped release does
not resolve the wait, releasing W (CHIP-8 key 5) records 5, and the next
cycle stores 5 in V3 and resumes fetch/execute at the unchanged PC. -/
theorem await_key_protocol_witness :
    ({ awaitingKeyState with keyboard := Keyboard.new } : Chip8).excecute_instruction 0 =
      some (awaitingKeyState, []) ∧
    awaitingKeyState.cycle 0 = some (awaitingKeyState, []) ∧
    (awaitingKeyState.on_key_down VKey.w).keyboard.awaiting_key_press = true ∧
    awaitingKeyState.on_key_up VKey.other = awaitingKeyState ∧
    awaitingKeyState.on_key_up VKey.w = keyResolvedState ∧
    (keyResolvedState.cycle 0).map (fun p => (p.1.registers 3, p.1.pc)) =
      some (5, 0x202) := by
  refine ⟨?_, ?_, ?_, ?_, ?_, ?_⟩
  · rw [await_key_protocol.1 0 _ 3 (by decide)]
    rfl
  · rw [await_key_protocol.2.1 0 awaitingKeyState rfl rfl rfl]
    rfl
  · exact (await_key_protocol.2.2.1 awaitingKeyState VKey.w).1.trans rfl
  · exact await_key_protocol.2.2.2.1 awaitingKeyState VKey.other rfl
  · rw [await_key_protocol.2.2.2.2.1 awaitingKeyState VKey.w 5 rfl rfl]
    rfl
  · rw [await_key_protocol.2.2.2.2.2 0 keyResolvedState rfl rfl]
    rfl
